import Mathlib

/-!
Verification of the Antigravity-Manager settings slice: the scheduled-warmup
configuration logic (src/pages/Settings.tsx, src/components/settings/SmartWarmup.tsx)
and the token-pool connection watchdog (useTokenPoolAutoConnect hook).

Encoding conventions:
* Times-of-day in the Settings.tsx schedule model are "HH:MM" strings in the
  source, always consumed through split(":").map(Number) into minutes since
  midnight; we embed them as minutes (Nat).  An empty string "" (and an absent
  field) is embedded as Option.none, matching the source where emptiness is
  only ever observed through falsiness checks.
* JS arrays indexed past their length read undefined; writing past the length
  creates holes that also read undefined.  Every field read the source performs
  on such a hole (start, end via optional chaining with a fallback to the empty
  string, enabled via a comparison with false) behaves exactly like the record
  holeWindow below, so holes are embedded as holeWindow.
* The SmartWarmup component keeps peak hours as raw "HH:MM" strings and never
  parses them in the mutation handlers, so there they stay Strings.
-/

/-! ## Settings.tsx scheduled-warmup data model -/

/-- One time window of the Settings.tsx schedule: `{ start, end, enabled }`.
The source field `end` is a Lean keyword, embedded as `endT`. -/
structure TimeRange where
  start : Option Nat
  endT : Option Nat
  enabled : Bool
deriving DecidableEq

/-- The `scheduled_warmup` slice of the form state: `{ enabled, schedules: { default: [...] } }`.
The single-key `schedules` object is flattened to its `default` list; an absent
`schedules` (or absent `default` key) is `none`. -/
structure WarmupState where
  enabled : Bool
  schedules : Option (List TimeRange)
deriving DecidableEq

/-- The three default windows of Settings.tsx:
10:00, 15:00, 21:00, each with `end` equal to `start` and enabled. -/
def defaultWindows : List TimeRange :=
  [⟨some 600, some 600, true⟩, ⟨some 900, some 900, true⟩, ⟨some 1260, some 1260, true⟩]

/-- The initial `formData.scheduled_warmup` of Settings.tsx (useState initializer). -/
def initialWarmup : WarmupState := ⟨false, some defaultWindows⟩

/-- The `updates` argument of `updateTimePoint`: `{ start?: string; enabled?: boolean }`. -/
structure TPUpdates where
  start : Option Nat
  enabled : Option Bool
deriving DecidableEq

/-- What a JS array hole (or out-of-range read) looks like through every field
access the source performs: no start, no end, and `enabled !== false`. -/
def holeWindow : TimeRange := ⟨none, none, true⟩

/-- JS array assignment `l[idx] = e`: in-range it replaces, out of range it
extends the array with holes up to `idx`. -/
def setWindow (l : List TimeRange) (idx : Nat) (e : TimeRange) : List TimeRange :=
  if idx < l.length then l.set idx e
  else l ++ List.replicate (idx - l.length) holeWindow ++ [e]

/-- Circular distance between two times-of-day in minutes, exactly as computed
inside `updateTimePoint` (Settings.tsx lines 460-461):
`let diff = Math.abs(newMinutes - otherMinutes); if (diff > 720) diff = 1440 - diff`. -/
def circDist (a b : Nat) : Nat :=
  let diff := ((a : Int) - (b : Int)).natAbs
  if 720 < diff then 1440 - diff else diff

/-- The validation loop of `updateTimePoint` (Settings.tsx lines 451-468): scan
every index other than `idx`; skip entries with no start or with `enabled === false`;
report a conflict when the circular distance to an enabled entry is below 300 minutes. -/
def windowConflicts (idx : Nat) (newMinutes : Nat) (l : List TimeRange) : Bool :=
  (List.range l.length).any fun i =>
    i != idx &&
      (match l[i]? with
       | some other =>
         match other.start with
         | some otherMinutes => other.enabled && decide (circDist newMinutes otherMinutes < 300)
         | none => false
       | none => false)

/-- The entry written by `updateTimePoint` (Settings.tsx lines 471-476):
`{ ...newTimes[idx], start: updates.start ?? newTimes[idx]?.start ?? '',
   end: updates.start ?? newTimes[idx]?.end ?? '',
   enabled: updates.enabled ?? newTimes[idx]?.enabled ?? true }`. -/
def entryAfter (l : List TimeRange) (idx : Nat) (u : TPUpdates) : TimeRange where
  start := match u.start with
    | some t => some t
    | none => (l[idx]?).bind TimeRange.start
  endT := match u.start with
    | some t => some t
    | none => (l[idx]?).bind TimeRange.endT
  enabled := match u.enabled with
    | some b => b
    | none =>
      match l[idx]? with
      | some w => w.enabled
      | none => true

/-- Function `updateTimePoint` of Settings.tsx (lines 437-484) as a function from the
current `scheduled_warmup` state to (accepted?, new state).  When `updates.start`
is present the separation validation runs; a conflict shows a toast and returns
without touching the state.  Otherwise the entry at `idx` is rewritten and the
state is replaced by `{ enabled: true, schedules: { default: newTimes } }`. -/
def updateTimePoint (s : WarmupState) (idx : Nat) (u : TPUpdates) : Bool × WarmupState :=
  let newTimes := s.schedules.getD defaultWindows
  let rejected := match u.start with
    | some t => windowConflicts idx t newTimes
    | none => false
  if rejected then (false, s)
  else (true, { enabled := true, schedules := some (setWindow newTimes idx (entryAfter newTimes idx u)) })

/-- The `hasExistingSchedules` condition of the Settings.tsx enable toggle
(lines 392-396): the schedules object exists, the default list is non-empty,
and at least one entry has a (truthy) start. -/
def hasExistingSchedules (s : WarmupState) : Bool :=
  match s.schedules with
  | none => false
  | some l => !l.isEmpty && l.any fun w => w.start.isSome

/-- The enable-toggle onChange handler of Settings.tsx (lines 384-405): set the
`enabled` flag, keeping the existing schedules when present and falling back to
the three defaults otherwise. -/
def setWarmupEnabled (s : WarmupState) (checked : Bool) : WarmupState where
  enabled := checked
  schedules := if hasExistingSchedules s then s.schedules else some defaultWindows

/-- Function `getWarmupTime` of Settings.tsx (lines 428-434), at the level of the already
split hour/minute pair: `warmupHour = h - 5; if (warmupHour < 0) warmupHour += 24`,
minutes unchanged.  Returns the displayed (hour, minute) pair. -/
def getWarmupTime (h m : Nat) : Nat × Nat :=
  let warmupHour : Int := (h : Int) - 5
  let warmupHour := if warmupHour < 0 then warmupHour + 24 else warmupHour
  (warmupHour.toNat, m)

/-! ## SmartWarmup.tsx model -/

/-- The `ScheduledWarmupConfig` shape consumed by SmartWarmup.tsx:
`{ enabled, monitored_models?: string[], peak_hours?: string[], warmup_mode? }`. -/
structure ScheduledWarmupConfig where
  enabled : Bool
  monitoredModels : Option (List String)
  peakHours : Option (List String)
  warmupMode : Option String
deriving DecidableEq

/-- The model catalog `warmupModelsOptions` of SmartWarmup.tsx (ids only). -/
def warmupModelsOptions : List String :=
  ["gemini-3-flash", "gemini-3-pro-high", "claude-sonnet-4-5", "gemini-3-pro-image"]

/-- Default peak hours of SmartWarmup.tsx: `['10:00', '15:00', '20:00']`. -/
def defaultPeakHours : List String := ["10:00", "15:00", "20:00"]

/-- The defaulted `peakHours` value (SmartWarmup.tsx line 22):
`config.peak_hours || ['10:00','15:00','20:00']` — the fallback fires only when
the field is absent, because an empty JS array is truthy. -/
def peakHoursOf (c : ScheduledWarmupConfig) : List String :=
  c.peakHours.getD defaultPeakHours

/-- Function `handleEnabledChange` of SmartWarmup.tsx (lines 25-39): set `enabled`;
when enabling with no monitored models, select the whole catalog; when peak
hours are absent or empty, install the defaults; default the mode. -/
def handleEnabledChange (c : ScheduledWarmupConfig) (enabled : Bool) : ScheduledWarmupConfig :=
  let nc0 : ScheduledWarmupConfig := { c with enabled := enabled }
  let nc1 := if enabled && (c.monitoredModels.getD []).isEmpty then
      { nc0 with monitoredModels := some warmupModelsOptions }
    else nc0
  let nc2 := if (nc1.peakHours.getD []).isEmpty then
      { nc1 with peakHours := some defaultPeakHours }
    else nc1
  if nc2.warmupMode.isNone then { nc2 with warmupMode := some "peak_based" } else nc2

/-- Function `toggleModel` of SmartWarmup.tsx (lines 41-54): deselect a selected model
unless it is the last one; select an unselected model by appending. -/
def toggleModel (c : ScheduledWarmupConfig) (model : String) : ScheduledWarmupConfig :=
  let currentModels := c.monitoredModels.getD []
  if currentModels.contains model then
    if currentModels.length ≤ 1 then c
    else { c with monitoredModels := some (currentModels.filter fun m2 => m2 != model) }
  else { c with monitoredModels := some (currentModels ++ [model]) }

/-- Function `handlePeakHourChange` of SmartWarmup.tsx (lines 60-64): overwrite the hour
at `index` with no validation of any kind. -/
def handlePeakHourChange (c : ScheduledWarmupConfig) (index : Nat) (value : String) :
    ScheduledWarmupConfig :=
  { c with peakHours := some ((peakHoursOf c).set index value) }

/-- Function `addPeakHour` of SmartWarmup.tsx (lines 66-69): append `'12:00'` unless six
entries already exist. -/
def addPeakHour (c : ScheduledWarmupConfig) : ScheduledWarmupConfig :=
  if 6 ≤ (peakHoursOf c).length then c
  else { c with peakHours := some (peakHoursOf c ++ ["12:00"]) }

/-- Function `removePeakHour` of SmartWarmup.tsx (lines 71-75): drop the entry at `index`
unless only one entry remains. -/
def removePeakHour (c : ScheduledWarmupConfig) (index : Nat) : ScheduledWarmupConfig :=
  if (peakHoursOf c).length ≤ 1 then c
  else { c with peakHours := some ((peakHoursOf c).eraseIdx index) }

/-- Function `calculateWarmupTime` of SmartWarmup.tsx (lines 78-85), at the level of the
already split hour/minute pair: `warmupMinutes = peakMinutes >= 300 ?
peakMinutes - 300 : 1440 + peakMinutes - 300`, then re-split into the displayed
(hour, minute) pair. -/
def calculateWarmupTime (h m : Nat) : Nat × Nat :=
  let peakMinutes := h * 60 + m
  let warmupMinutes := if 300 ≤ peakMinutes then peakMinutes - 300 else 1440 + peakMinutes - 300
  (warmupMinutes / 60, warmupMinutes % 60)

/-! ## Token-pool connection watchdog (useTokenPoolAutoConnect)

`checkAndConnect` is an async function; its body is a sequence of synchronous
segments separated by the two awaits (`tokenpool_status`, `tokenpool_connect`).
We embed it as a transition system: each spawned execution of `checkAndConnect`
sits in a phase, and each scheduler action runs one synchronous segment of one
execution atomically (exactly the atomicity the single-threaded JS event loop
provides).  `isConnecting` is the shared ref. -/

/-- Phase of one execution of `checkAndConnect`:
spawned but guard not yet run; suspended in the status query; suspended in the
connect call (the connect request to `url` is in flight); finished. -/
inductive PoolPhase where
  | ready
  | awaitStatus
  | awaitConnect (url : String)
  | done
deriving DecidableEq

/-- Shared state of the hook: the `isConnecting` ref plus every spawned
execution of `checkAndConnect`. -/
structure WatchdogState where
  isConnecting : Bool
  execs : List PoolPhase
deriving DecidableEq

/-- Scheduler actions: a timer tick (or the initial call) spawns an execution;
the other actions resume execution `i` through its next synchronous segment.
`statusOk i st` delivers a status-query result `st`; `statusFail i` makes the
query throw; `connectDone i ok` completes the connect call with success or
failure. -/
inductive WAction where
  | spawn
  | runGuard (i : Nat)
  | statusFail (i : Nat)
  | statusOk (i : Nat) (st : String)
  | connectDone (i : Nat) (ok : Bool)

/-- The connect condition of `checkAndConnect` (line 30):
`status.status === 'Disconnected' || status.status.startsWith('Error')`.
The prefix test is taken on the character list so that it computes by kernel
reduction; it agrees with `String.startsWith` on every string. -/
def connectTrigger (st : String) : Bool :=
  st == "Disconnected" || List.isPrefixOf "Error".data st.data

/-- The connect endpoint (line 34):
`config.token_pool?.server_url || 'ws://127.0.0.1:8046/ws/supplier'`. -/
def effectiveUrl (serverUrl : Option String) : String :=
  serverUrl.getD "ws://127.0.0.1:8046/ws/supplier"

/-- One atomic step of the watchdog transition system.  `runGuard` runs the
segment from the top of `checkAndConnect` up to the `tokenpool_status` await:
it returns at once when `isConnecting` is set, otherwise issues the query.
`statusOk` runs the segment after the query resolves: when the status triggers,
it sets `isConnecting` and issues the connect call with the configured
endpoint, otherwise the execution ends.  `statusFail` is the catch branch: log
and end.  `connectDone` runs the finally block: clear `isConnecting`.
Inapplicable actions leave the state unchanged. -/
def wstep (serverUrl : Option String) (s : WatchdogState) (a : WAction) : WatchdogState :=
  match a with
  | .spawn => { s with execs := s.execs ++ [.ready] }
  | .runGuard i =>
    match s.execs[i]? with
    | some .ready =>
      if s.isConnecting then { s with execs := s.execs.set i .done }
      else { s with execs := s.execs.set i .awaitStatus }
    | _ => s
  | .statusFail i =>
    match s.execs[i]? with
    | some .awaitStatus => { s with execs := s.execs.set i .done }
    | _ => s
  | .statusOk i st =>
    match s.execs[i]? with
    | some .awaitStatus =>
      if connectTrigger st then
        { isConnecting := true, execs := s.execs.set i (.awaitConnect (effectiveUrl serverUrl)) }
      else { s with execs := s.execs.set i .done }
    | _ => s
  | .connectDone i _ =>
    match s.execs[i]? with
    | some (.awaitConnect _) => { isConnecting := false, execs := s.execs.set i .done }
    | _ => s

/-- Run a list of scheduler actions from a state. -/
def wrun (serverUrl : Option String) (s : WatchdogState) (acts : List WAction) : WatchdogState :=
  acts.foldl (wstep serverUrl) s

/-- Number of connect calls currently in flight. -/
def inFlightCount (s : WatchdogState) : Nat :=
  s.execs.countP fun p => match p with | .awaitConnect _ => true | _ => false

/-! ## Separation and degeneracy predicates -/

/-- A pair of windows is acceptable when they are not both enabled, or either
lacks a time, or their times are at least 300 minutes apart circularly. -/
def okPair (wi wj : TimeRange) : Bool :=
  !(wi.enabled && wj.enabled) ||
    (match wi.start, wj.start with
     | some a, some b => decide (300 ≤ circDist a b)
     | _, _ => true)

/-- Every pair of distinct windows in the list is acceptable. -/
def enabledSeparated : List TimeRange → Bool
  | [] => true
  | w :: rest => (rest.all fun w2 => okPair w w2) && enabledSeparated rest

/-- Every window of the state stores a degenerate range: `end` equals `start`. -/
def degenerateWindows (s : WarmupState) : Bool :=
  match s.schedules with
  | none => true
  | some l => l.all fun w => w.endT == w.start

/-- States of the `scheduled_warmup` form data reachable on the Settings page:
the initial form state, and anything obtained by the enable toggle or by an
`updateTimePoint` call (accepted or rejected). -/
inductive ReachableWarmup : WarmupState → Prop where
  | init : ReachableWarmup initialWarmup
  | enable (s : WarmupState) (b : Bool) :
      ReachableWarmup s → ReachableWarmup (setWarmupEnabled s b)
  | update (s : WarmupState) (idx : Nat) (u : TPUpdates) :
      ReachableWarmup s → ReachableWarmup (updateTimePoint s idx u).2

/-! ## Concrete states used by counterexamples -/

/-- Intermediate state of the separation-violation trace: window 0 disabled. -/
def sepTrace1 : WarmupState := (updateTimePoint initialWarmup 0 ⟨none, some false⟩).2

/-- Intermediate state: window 1 retimed to 11:40 while window 0 is disabled. -/
def sepTrace2 : WarmupState := (updateTimePoint sepTrace1 1 ⟨some 700, none⟩).2

/-- Final state: window 0 re-enabled with no validation. -/
def sepTrace3 : WarmupState := (updateTimePoint sepTrace2 0 ⟨none, some true⟩).2

/-- A state with an enabled 10:00 window, a disabled 11:40 window and an
enabled 21:00 window. -/
def toggleState : WarmupState :=
  ⟨true, some [⟨some 600, some 600, true⟩, ⟨some 700, some 700, false⟩,
               ⟨some 1260, some 1260, true⟩]⟩

/-! ## Helper lemmas -/

theorem circDist_comm (a b : Nat) : circDist a b = circDist b a := by
  simp only [circDist]
  split <;> split <;> omega

theorem okPair_comm (a b : TimeRange) : okPair a b = okPair b a := by
  unfold okPair
  cases ha : a.start <;> cases hb : b.start <;>
    simp [circDist_comm, Bool.and_comm]

theorem okPair_hole_right (w : TimeRange) : okPair w holeWindow = true := by
  cases h : w.start <;> simp [okPair, holeWindow, h]

theorem okPair_hole_left (w : TimeRange) : okPair holeWindow w = true := by
  rw [okPair_comm]; exact okPair_hole_right w

theorem enabledSeparated_iff (l : List TimeRange) :
    enabledSeparated l = true ↔ l.Pairwise fun a b => okPair a b = true := by
  induction l with
  | nil => simp [enabledSeparated]
  | cons w rest ih =>
    simp [enabledSeparated, List.pairwise_cons, List.all_eq_true, ih]

theorem enabledSeparated_iff_indexed (l : List TimeRange) :
    enabledSeparated l = true ↔
      ∀ (i j : Nat) (wi wj : TimeRange),
        i ≠ j → l[i]? = some wi → l[j]? = some wj → okPair wi wj = true := by
  rw [enabledSeparated_iff, List.pairwise_iff_get]
  constructor
  · intro h i j wi wj hne hi hj
    have hi' : i < l.length := (List.getElem?_eq_some.mp hi).1
    have hj' : j < l.length := (List.getElem?_eq_some.mp hj).1
    have hwi : l[i] = wi := by
      have := (List.getElem?_eq_some.mp hi).2; exact this
    have hwj : l[j] = wj := by
      have := (List.getElem?_eq_some.mp hj).2; exact this
    rcases Nat.lt_or_ge i j with hij | hij
    · have := h ⟨i, hi'⟩ ⟨j, hj'⟩ hij
      simpa [List.get_eq_getElem, hwi, hwj] using this
    · have hji : j < i := by omega
      have := h ⟨j, hj'⟩ ⟨i, hi'⟩ hji
      rw [okPair_comm]
      simpa [List.get_eq_getElem, hwi, hwj] using this
  · intro h i j hij
    exact h i j _ _ (by omega : (i : Nat) ≠ j)
      (List.getElem?_eq_getElem i.isLt) (List.getElem?_eq_getElem j.isLt)

theorem windowConflicts_eq_false (idx t : Nat) (l : List TimeRange)
    (h : windowConflicts idx t l = false) :
    ∀ j w om, j ≠ idx → l[j]? = some w → w.start = some om → w.enabled = true →
      300 ≤ circDist t om := by
  intro j w om hne hj hst hen
  by_contra hlt
  push_neg at hlt
  have hjlen : j < l.length := (List.getElem?_eq_some.mp hj).1
  have : windowConflicts idx t l = true := by
    unfold windowConflicts
    rw [List.any_eq_true]
    refine ⟨j, List.mem_range.mpr hjlen, ?_⟩
    simp [hj, hst, hen, hne, hlt]
  simp [this] at h

theorem setWindow_getElem? (l : List TimeRange) (idx : Nat) (e : TimeRange) (k : Nat) :
    (setWindow l idx e)[k]? =
      if k = idx then some e
      else if k < l.length then l[k]?
      else if k < idx then some holeWindow else none := by
  unfold setWindow
  by_cases hidx : idx < l.length
  · rw [if_pos hidx, List.getElem?_set]
    by_cases hk : k = idx
    · simp [hk, hidx]
    · have : ¬ idx = k := fun hc => hk hc.symm
      simp only [this, if_neg, hk, if_false]
      by_cases hkl : k < l.length
      · simp [hkl]
      · simp [hkl, List.getElem?_eq_none (by omega : l.length ≤ k),
          if_neg (by omega : ¬ k < idx)]
  · rw [if_neg hidx]
    rw [List.getElem?_append, List.getElem?_append]
    simp only [List.length_append, List.length_replicate, List.getElem?_replicate]
    rcases Nat.lt_or_ge k l.length with hkl | hkl
    · rw [if_pos (show k < l.length + (idx - l.length) by omega), if_pos hkl,
        if_neg (show ¬ k = idx by omega), if_pos hkl]
    · rcases Nat.lt_or_ge k idx with hki | hki
      · rw [if_pos (show k < l.length + (idx - l.length) by omega),
          if_neg (show ¬ k < l.length by omega),
          if_pos (show k - l.length < idx - l.length by omega),
          if_neg (show ¬ k = idx by omega),
          if_neg (show ¬ k < l.length by omega), if_pos hki]
      · rcases Nat.eq_or_lt_of_le hki with hke | hke
        · rw [if_neg (show ¬ k < l.length + (idx - l.length) by omega),
            if_pos (show k = idx from hke.symm),
            (show k - (l.length + (idx - l.length)) = 0 by omega)]
          rfl
        · rw [if_neg (show ¬ k < l.length + (idx - l.length) by omega),
            if_neg (show ¬ k = idx by omega),
            if_neg (show ¬ k < l.length by omega),
            if_neg (show ¬ k < idx by omega)]
          exact List.getElem?_eq_none (by simp; omega)

theorem setWindow_mem (l : List TimeRange) (idx : Nat) (e w : TimeRange)
    (h : w ∈ setWindow l idx e) : w ∈ l ∨ w = e ∨ w = holeWindow := by
  unfold setWindow at h
  split at h
  · rcases List.mem_or_eq_of_mem_set h with h1 | h1
    · exact Or.inl h1
    · exact Or.inr (Or.inl h1)
  · simp only [List.append_assoc, List.mem_append, List.mem_singleton,
      List.mem_replicate] at h
    rcases h with h1 | h1 | h1
    · exact Or.inl h1
    · exact Or.inr (Or.inr h1.2)
    · exact Or.inr (Or.inl h1)

/-! ## Claim theorems -/

/-- Claim C8: the implemented circular distance equals
min(|a-b|, 1440-|a-b|) on times-of-day, it is symmetric, and
distance(23:50, 00:10) = 20 minutes. -/
theorem circularDistanceMin (a b : Nat) (ha : a ≤ 1439) (hb : b ≤ 1439) :
    circDist a b = min ((a : Int) - b).natAbs (1440 - ((a : Int) - b).natAbs) ∧
    circDist a b = circDist b a ∧
    circDist 1430 10 = 20 := by
  refine ⟨?_, circDist_comm a b, by decide⟩
  simp only [circDist]
  split <;> omega

/-- Witness for C8 at a = 23:50, b = 00:10. -/
theorem circularDistanceMin_witness :
    circDist 1430 10 =
      min ((1430 : Int) - 10).natAbs (1440 - ((1430 : Int) - 10).natAbs) :=
  (circularDistanceMin 1430 10 (by decide) (by decide)).1

/-- Claim C7: both trigger-time helpers agree on every valid hour/minute pair,
and the trigger instant in minutes is (peak + 1140) mod 1440, which is exactly
(peak - 300) mod 1440 over the integers. -/
theorem warmupTriggerComputation (h m : Nat) (hh : h ≤ 23) (hm : m ≤ 59) :
    calculateWarmupTime h m = getWarmupTime h m ∧
    (calculateWarmupTime h m).1 * 60 + (calculateWarmupTime h m).2 =
      (h * 60 + m + 1140) % 1440 ∧
    (((h * 60 + m + 1140) % 1440 : Nat) : Int) = ((h : Int) * 60 + m - 300) % 1440 := by
  refine ⟨?_, ?_, ?_⟩
  · simp only [calculateWarmupTime, getWarmupTime, Prod.mk.injEq]
    constructor <;> split_ifs <;> omega
  · simp only [calculateWarmupTime]
    split_ifs <;> omega
  · omega

/-- Witness for C7: peak 10:00 triggers at 05:00 and peak 02:00 at 21:00,
through both helpers. -/
theorem warmupTriggerComputation_witness :
    calculateWarmupTime 10 0 = getWarmupTime 10 0 ∧
    calculateWarmupTime 10 0 = (5, 0) ∧
    calculateWarmupTime 2 0 = (21, 0) ∧
    getWarmupTime 2 0 = (21, 0) :=
  ⟨(warmupTriggerComputation 10 0 (by decide) (by decide)).1,
   by decide, by decide, by decide⟩

/-- Claim C1 (refuting trace): from the idle watchdog, two ticks can both pass
the isConnecting guard while their status queries are pending — the guard is
read before the awaited query and written only after it — so both proceed to
issue a connect call: the state reached by this interleaving has two connect
calls in flight. -/
theorem doubleConnectReachable :
    inFlightCount (wrun none ⟨false, []⟩
      [WAction.spawn, WAction.spawn, WAction.runGuard 0, WAction.runGuard 1,
       WAction.statusOk 0 "Disconnected", WAction.statusOk 1 "Disconnected"]) = 2 := by
  decide

/-- Claim C3 (counterexample): toggling the disabled 11:40 window to enabled,
next to an enabled 10:00 window (distance 100 < 300), is accepted and changes
the state — the source skips the separation check on toggles. -/
theorem toggleEnableSkipsValidation :
    (updateTimePoint toggleState 1 ⟨none, some true⟩).1 = true ∧
    (updateTimePoint toggleState 1 ⟨none, some true⟩).2 ≠ toggleState ∧
    circDist 600 700 < 300 ∧
    (updateTimePoint toggleState 1 ⟨none, some true⟩).2.schedules =
      some [⟨some 600, some 600, true⟩, ⟨some 700, some 700, true⟩,
            ⟨some 1260, some 1260, true⟩] := by
  decide

/-- Claim C3 (amended): a toggle of the enabled flag — in either direction —
runs no validation and is always accepted, because the separation check only
runs when the update carries a start time. -/
theorem toggleWindowAlwaysAccepted (s : WarmupState) (idx : Nat) (b : Bool) :
    (updateTimePoint s idx ⟨none, some b⟩).1 = true := rfl

/-- Claim C4: whenever updateTimePoint rejects, the state it returns is the
state it was given, unchanged. -/
theorem updateRejectionPreservesState (s : WarmupState) (idx : Nat) (u : TPUpdates)
    (hrej : (updateTimePoint s idx u).1 = false) :
    (updateTimePoint s idx u).2 = s := by
  rcases hu : u.start with _ | t
  · simp [updateTimePoint, hu] at hrej
  · rcases hcf : windowConflicts idx t (s.schedules.getD defaultWindows) with _ | _
    · simp [updateTimePoint, hu, hcf] at hrej
    · simp [updateTimePoint, hu, hcf]

/-- Witness for C4: retiming window 0 to 14:59 next to the enabled 15:00 window
is rejected and the state is returned unchanged. -/
theorem updateRejectionPreservesState_witness :
    (updateTimePoint initialWarmup 0 ⟨some 899, none⟩).1 = false ∧
    (updateTimePoint initialWarmup 0 ⟨some 899, none⟩).2 = initialWarmup :=
  ⟨by decide, updateRejectionPreservesState initialWarmup 0 ⟨some 899, none⟩ (by decide)⟩

/-- Claim C2 (counterexample): a trace of three accepted mutations on the
Settings page breaks the pairwise separation of enabled windows: disable the
10:00 window, retime the 15:00 window to 11:40 (validated only against the
still-enabled windows), then re-enable the 10:00 window (no validation at
all).  The final enabled windows 10:00 and 11:40 are 100 < 300 minutes apart. -/
theorem acceptedMutationsBreakSeparation :
    (updateTimePoint initialWarmup 0 ⟨none, some false⟩).1 = true ∧
    (updateTimePoint sepTrace1 1 ⟨some 700, none⟩).1 = true ∧
    (updateTimePoint sepTrace2 0 ⟨none, some true⟩).1 = true ∧
    sepTrace3.schedules = some [⟨some 600, some 600, true⟩, ⟨some 700, some 700, true⟩,
      ⟨some 1260, some 1260, true⟩] ∧
    enabledSeparated [⟨some 600, some 600, true⟩, ⟨some 700, some 700, true⟩,
      ⟨some 1260, some 1260, true⟩] = false := by
  decide

/-- An accepted time edit keeps every enabled window at distance at least 300
from the new time: the written entry is compatible with every other entry of
the previous list. -/
theorem okPair_entry (L : List TimeRange) (idx t : Nat) (en : Option Bool)
    (hconf : windowConflicts idx t L = false)
    (k : Nat) (w : TimeRange) (hkne : k ≠ idx) (hk : L[k]? = some w) :
    okPair (entryAfter L idx ⟨some t, en⟩) w = true := by
  have hestart : (entryAfter L idx ⟨some t, en⟩).start = some t := rfl
  rcases hw : w.start with _ | om
  · simp [okPair, hestart, hw]
  · rcases hen2 : w.enabled with _ | _
    · simp [okPair, hen2]
    · have hge := windowConflicts_eq_false idx t L hconf k w om hkne hk hw hen2
      simp [okPair, hestart, hw, hge]

/-- Claim C2 (amended): accepted time edits through updateTimePoint preserve
the pairwise 300-minute separation of enabled windows; the full claim fails
because enable toggles (and SmartWarmup peak-hour edits) run no validation. -/
theorem timeEditPreservesSeparation (s : WarmupState) (idx t : Nat) (en : Option Bool)
    (hsep : enabledSeparated (s.schedules.getD defaultWindows) = true)
    (hacc : (updateTimePoint s idx ⟨some t, en⟩).1 = true) :
    enabledSeparated
      ((updateTimePoint s idx ⟨some t, en⟩).2.schedules.getD defaultWindows) = true := by
  have hconf : windowConflicts idx t (s.schedules.getD defaultWindows) = false := by
    by_contra hc
    rw [Bool.not_eq_false] at hc
    simp [updateTimePoint, hc] at hacc
  have hres : (updateTimePoint s idx ⟨some t, en⟩).2
      = { enabled := true,
          schedules := some (setWindow (s.schedules.getD defaultWindows) idx
            (entryAfter (s.schedules.getD defaultWindows) idx ⟨some t, en⟩)) } := by
    simp [updateTimePoint, hconf]
  rw [hres]
  show enabledSeparated (setWindow (s.schedules.getD defaultWindows) idx
    (entryAfter (s.schedules.getD defaultWindows) idx ⟨some t, en⟩)) = true
  set L := s.schedules.getD defaultWindows with hLdef
  set e := entryAfter L idx ⟨some t, en⟩ with hedef
  rw [enabledSeparated_iff_indexed] at hsep ⊢
  intro i j wi wj hne hi hj
  rw [setWindow_getElem?] at hi hj
  by_cases hi1 : i = idx
  · rw [if_pos hi1] at hi
    obtain rfl : e = wi := Option.some.inj hi
    by_cases hj1 : j = idx
    · exact absurd (hi1.trans hj1.symm) hne
    · rw [if_neg hj1] at hj
      by_cases hj2 : j < L.length
      · rw [if_pos hj2] at hj
        exact okPair_entry L idx t en hconf j wj hj1 hj
      · rw [if_neg hj2] at hj
        by_cases hj3 : j < idx
        · rw [if_pos hj3] at hj
          obtain rfl : holeWindow = wj := Option.some.inj hj
          exact okPair_hole_right e
        · rw [if_neg hj3] at hj
          exact absurd hj (by simp)
  · rw [if_neg hi1] at hi
    by_cases hj1 : j = idx
    · rw [if_pos hj1] at hj
      obtain rfl : e = wj := Option.some.inj hj
      rw [okPair_comm]
      by_cases hi2 : i < L.length
      · rw [if_pos hi2] at hi
        exact okPair_entry L idx t en hconf i wi hi1 hi
      · rw [if_neg hi2] at hi
        by_cases hi3 : i < idx
        · rw [if_pos hi3] at hi
          obtain rfl : holeWindow = wi := Option.some.inj hi
          exact okPair_hole_right e
        · rw [if_neg hi3] at hi
          exact absurd hi (by simp)
    · rw [if_neg hj1] at hj
      by_cases hi2 : i < L.length
      · rw [if_pos hi2] at hi
        by_cases hj2 : j < L.length
        · rw [if_pos hj2] at hj
          exact hsep i j wi wj hne hi hj
        · rw [if_neg hj2] at hj
          by_cases hj3 : j < idx
          · rw [if_pos hj3] at hj
            obtain rfl : holeWindow = wj := Option.some.inj hj
            exact okPair_hole_right wi
          · rw [if_neg hj3] at hj
            exact absurd hj (by simp)
      · rw [if_neg hi2] at hi
        by_cases hi3 : i < idx
        · rw [if_pos hi3] at hi
          obtain rfl : holeWindow = wi := Option.some.inj hi
          exact okPair_hole_left wj
        · rw [if_neg hi3] at hi
          exact absurd hi (by simp)

/-- Witness for the amended C2: retiming window 0 of the default state to
05:00 is accepted and the result still satisfies the separation invariant. -/
theorem timeEditPreservesSeparation_witness :
    enabledSeparated
      ((updateTimePoint initialWarmup 0 ⟨some 300, none⟩).2.schedules.getD
        defaultWindows) = true :=
  timeEditPreservesSeparation initialWarmup 0 300 none (by decide) (by decide)

/-- Claim C5: on a tick whose status query is pending and with no attempt in
flight, a query failure ends the tick with the flag still clear; a query result
moves the tick to an in-flight connect with the configured endpoint exactly
when the status triggers; the trigger holds exactly for Disconnected and
Error-prefixed statuses; and completing a connect call, successfully or not,
clears the in-flight flag. -/
theorem watchdogTickContract (serverUrl : Option String) (s : WatchdogState) (i : Nat)
    (hst : s.execs[i]? = some PoolPhase.awaitStatus) (hfl : s.isConnecting = false) :
    ((wstep serverUrl s (WAction.statusFail i)).isConnecting = false ∧
      (wstep serverUrl s (WAction.statusFail i)).execs[i]? = some PoolPhase.done) ∧
    (∀ st : String,
      (wstep serverUrl s (WAction.statusOk i st)).execs[i]? =
        some (if connectTrigger st then PoolPhase.awaitConnect (effectiveUrl serverUrl)
          else PoolPhase.done) ∧
      (wstep serverUrl s (WAction.statusOk i st)).isConnecting = connectTrigger st) ∧
    (connectTrigger "Disconnected" = true ∧ connectTrigger "Connecting" = false ∧
      connectTrigger "Connected" = false ∧
      ∀ r : String, connectTrigger ("Error" ++ r) = true) ∧
    (∀ (t2 : WatchdogState) (j : Nat) (url : String) (ok : Bool),
      t2.execs[j]? = some (PoolPhase.awaitConnect url) →
      (wstep serverUrl t2 (WAction.connectDone j ok)).isConnecting = false) := by
  have hlen : i < s.execs.length := (List.getElem?_eq_some.mp hst).1
  refine ⟨⟨?_, ?_⟩, ?_, ⟨by decide, by decide, by decide, ?_⟩, ?_⟩
  · simp [wstep, hst, hfl]
  · simp [wstep, hst, List.getElem?_set, hlen]
  · intro st
    constructor
    · rcases htr : connectTrigger st with _ | _
      · simp [wstep, hst, htr, List.getElem?_set, hlen]
      · simp [wstep, hst, htr, List.getElem?_set, hlen]
    · rcases htr : connectTrigger st with _ | _
      · simp [wstep, hst, htr, hfl]
      · simp [wstep, hst, htr]
  · intro r
    simp [connectTrigger, String.data_append]
  · intro t2 j url ok hj
    simp [wstep, hj]

/-- Witness for C5 at the one-execution state with a pending status query. -/
theorem watchdogTickContract_witness :
    (wstep none ⟨false, [PoolPhase.awaitStatus]⟩ (WAction.statusFail 0)).isConnecting = false ∧
    (wstep none ⟨false, [PoolPhase.awaitStatus]⟩ (WAction.statusOk 0 "Disconnected")).execs[0]? =
      some (PoolPhase.awaitConnect "ws://127.0.0.1:8046/ws/supplier") := by
  have h := watchdogTickContract none ⟨false, [PoolPhase.awaitStatus]⟩ 0 rfl rfl
  refine ⟨h.1.1, ?_⟩
  have h2 := (h.2.1 "Disconnected").1
  rw [h2]
  decide

/-- Claim C6 (counterexample): enabling through the SmartWarmup panel on an
empty config populates the peak hours with 10:00, 15:00, 20:00 — not with the
claimed 10:00, 15:00, 21:00. -/
theorem smartWarmupDefaultsNot2100 :
    (handleEnabledChange ⟨false, none, none, none⟩ true).peakHours =
      some ["10:00", "15:00", "20:00"] ∧
    (handleEnabledChange ⟨false, none, none, none⟩ true).peakHours ≠
      some ["10:00", "15:00", "21:00"] := by
  decide

/-- Claim C6 (amended): enabling with no monitored models selects the whole
(non-empty) catalog; enabling with absent or empty peak hours installs
SmartWarmup defaults 10:00, 15:00, 20:00; the Settings page enable toggle
installs the 10:00, 15:00, 21:00 windows when none are set; and enabling with
both collections already populated changes neither. -/
theorem enableWarmupDefaults :
    (∀ c : ScheduledWarmupConfig, (c.monitoredModels.getD []).isEmpty = true →
      (handleEnabledChange c true).monitoredModels = some warmupModelsOptions) ∧
    warmupModelsOptions ≠ [] ∧
    (∀ c : ScheduledWarmupConfig, (c.peakHours.getD []).isEmpty = true →
      (handleEnabledChange c true).peakHours = some defaultPeakHours) ∧
    (∀ c : ScheduledWarmupConfig, (c.monitoredModels.getD []).isEmpty = false →
      (handleEnabledChange c true).monitoredModels = c.monitoredModels) ∧
    (∀ c : ScheduledWarmupConfig, (c.peakHours.getD []).isEmpty = false →
      (handleEnabledChange c true).peakHours = c.peakHours) ∧
    (∀ s : WarmupState, hasExistingSchedules s = false →
      (setWarmupEnabled s true).schedules = some defaultWindows) ∧
    (∀ s : WarmupState, hasExistingSchedules s = true →
      (setWarmupEnabled s true).schedules = s.schedules) ∧
    defaultWindows.map TimeRange.start = [some 600, some 900, some 1260] := by
  refine ⟨?_, by decide, ?_, ?_, ?_, ?_, ?_, by decide⟩
  · intro c h
    unfold handleEnabledChange
    simp only [h, Bool.and_true, Bool.true_and, if_true]
    split_ifs <;> rfl
  · intro c h
    unfold handleEnabledChange
    simp only [h]
    split_ifs <;> rfl
  · intro c h
    unfold handleEnabledChange
    simp only [h, Bool.and_true, Bool.true_and, Bool.false_eq_true, if_false]
    split_ifs <;> rfl
  · intro c h
    simp only [handleEnabledChange]
    split_ifs <;> simp_all
  · intro s h
    simp [setWarmupEnabled, h]
  · intro s h
    simp [setWarmupEnabled, h]

/-- Witness for the amended C6: enabling the empty config selects the catalog
and the SmartWarmup default peak hours; enabling the schedule-less Settings
state installs the default windows. -/
theorem enableWarmupDefaults_witness :
    (handleEnabledChange ⟨false, none, none, none⟩ true).monitoredModels =
      some warmupModelsOptions ∧
    (handleEnabledChange ⟨false, none, none, none⟩ true).peakHours = some defaultPeakHours ∧
    (setWarmupEnabled ⟨false, none⟩ true).schedules = some defaultWindows :=
  ⟨enableWarmupDefaults.1 ⟨false, none, none, none⟩ (by decide),
   enableWarmupDefaults.2.2.1 ⟨false, none, none, none⟩ (by decide),
   enableWarmupDefaults.2.2.2.2.2.1 ⟨false, none⟩ (by decide)⟩

/-- Claim C9: adding a seventh peak hour is a no-op, removing the only peak
hour is a no-op, deselecting the only monitored model is a no-op; the peak-hour
count stays within [1,6] under add/remove, and the (duplicate-free) monitored
model list stays non-empty under toggles. -/
theorem warmupCollectionBounds :
    (∀ c : ScheduledWarmupConfig, 6 ≤ (peakHoursOf c).length → addPeakHour c = c) ∧
    (∀ (c : ScheduledWarmupConfig) (idx : Nat), (peakHoursOf c).length ≤ 1 →
      removePeakHour c idx = c) ∧
    (∀ (c : ScheduledWarmupConfig) (m : String),
      (c.monitoredModels.getD []).contains m = true →
      (c.monitoredModels.getD []).length ≤ 1 → toggleModel c m = c) ∧
    (∀ c : ScheduledWarmupConfig, 1 ≤ (peakHoursOf c).length → (peakHoursOf c).length ≤ 6 →
      (1 ≤ (peakHoursOf (addPeakHour c)).length ∧ (peakHoursOf (addPeakHour c)).length ≤ 6) ∧
      ∀ idx : Nat, 1 ≤ (peakHoursOf (removePeakHour c idx)).length ∧
        (peakHoursOf (removePeakHour c idx)).length ≤ 6) ∧
    (∀ (c : ScheduledWarmupConfig) (m : String), (c.monitoredModels.getD []).Nodup →
      c.monitoredModels.getD [] ≠ [] → (toggleModel c m).monitoredModels.getD [] ≠ []) := by
  refine ⟨?_, ?_, ?_, ?_, ?_⟩
  · intro c h
    unfold addPeakHour
    rw [if_pos h]
  · intro c idx h
    unfold removePeakHour
    rw [if_pos h]
  · intro c m h1 h2
    have h1m : m ∈ c.monitoredModels.getD [] := by simpa using h1
    simp [toggleModel, h1m, h2]
  · intro c h1 h6
    constructor
    · by_cases hc : 6 ≤ (peakHoursOf c).length
      · rw [addPeakHour, if_pos hc]
        exact ⟨h1, h6⟩
      · rw [addPeakHour, if_neg hc]
        show 1 ≤ (peakHoursOf c ++ ["12:00"]).length ∧ (peakHoursOf c ++ ["12:00"]).length ≤ 6
        rw [List.length_append]
        simp only [List.length_cons, List.length_nil]
        omega
    · intro idx
      by_cases hc : (peakHoursOf c).length ≤ 1
      · rw [removePeakHour, if_pos hc]
        exact ⟨h1, h6⟩
      · rw [removePeakHour, if_neg hc]
        show 1 ≤ ((peakHoursOf c).eraseIdx idx).length ∧
          ((peakHoursOf c).eraseIdx idx).length ≤ 6
        rw [List.length_eraseIdx]
        refine ⟨?_, ?_⟩ <;> split <;> omega
  · intro c m hnd hne
    by_cases h1 : m ∈ c.monitoredModels.getD []
    · by_cases h2 : (c.monitoredModels.getD []).length ≤ 1
      · simpa [toggleModel, h1, h2] using hne
      · have hres : (toggleModel c m).monitoredModels.getD []
            = (c.monitoredModels.getD []).filter (fun m2 => m2 != m) := by
          simp [toggleModel, h1, h2]
        rw [hres]
        intro hfil
        have hall : ∀ a ∈ c.monitoredModels.getD [], ¬ (a != m) = true := by
          rw [← List.filter_eq_nil_iff]
          exact hfil
        have hlen2 : 2 ≤ (c.monitoredModels.getD []).length := by omega
        rcases hl : c.monitoredModels.getD [] with _ | ⟨a, _ | ⟨b, rest⟩⟩
        · rw [hl] at hlen2; simp at hlen2
        · rw [hl] at hlen2; simp at hlen2
        · rw [hl] at hall hnd
          have ha : a = m := by
            have := hall a (by simp)
            simpa using this
          have hb : b = m := by
            have := hall b (by simp)
            simpa using this
          rw [List.nodup_cons] at hnd
          exact hnd.1 (by simp [ha, hb])
    · have hres : (toggleModel c m).monitoredModels.getD []
          = c.monitoredModels.getD [] ++ [m] := by
        simp only [toggleModel]
        rw [if_neg (by simpa using h1)]
        rfl
      simp [hres]

/-- Witness for C9 at full, singleton and unit collections. -/
theorem warmupCollectionBounds_witness :
    addPeakHour ⟨true, none, some ["01:00", "04:00", "07:00", "10:00", "13:00", "16:00"], none⟩
      = ⟨true, none, some ["01:00", "04:00", "07:00", "10:00", "13:00", "16:00"], none⟩ ∧
    removePeakHour ⟨true, none, some ["10:00"], none⟩ 0 = ⟨true, none, some ["10:00"], none⟩ ∧
    toggleModel ⟨true, some ["gemini-3-flash"], none, none⟩ "gemini-3-flash"
      = ⟨true, some ["gemini-3-flash"], none, none⟩ ∧
    (peakHoursOf (addPeakHour ⟨true, none, some ["10:00"], none⟩)).length ≤ 6 ∧
    (toggleModel ⟨true, some ["gemini-3-flash"], none, none⟩ "claude-sonnet-4-5").monitoredModels.getD [] ≠ [] :=
  ⟨warmupCollectionBounds.1 _ (by decide),
   warmupCollectionBounds.2.1 _ 0 (by decide),
   warmupCollectionBounds.2.2.1 _ _ (by decide) (by decide),
   ((warmupCollectionBounds.2.2.2.1 _ (by decide) (by decide)).1).2,
   warmupCollectionBounds.2.2.2.2 _ _ (by decide) (by decide)⟩

/-- Reading a list at a defined index yields a member. -/
theorem mem_of_getElemOpt {l : List TimeRange} {i : Nat} {w : TimeRange}
    (h : l[i]? = some w) : w ∈ l := by
  have hi : i < l.length := (List.getElem?_eq_some.mp h).1
  have hw : l[i] = w := (List.getElem?_eq_some.mp h).2
  exact hw ▸ l.getElem_mem hi

/-- Writing the updateTimePoint entry keeps every range degenerate: the entry
copies both fields from the update (equal) or from the old entry (equal by
hypothesis), and holes are degenerate. -/
theorem setWindow_degenerate (L : List TimeRange) (idx : Nat) (u : TPUpdates)
    (hL : L.all (fun w => w.endT == w.start) = true) :
    (setWindow L idx (entryAfter L idx u)).all (fun w => w.endT == w.start) = true := by
  rw [List.all_eq_true] at hL ⊢
  intro w hw
  rcases setWindow_mem L idx _ w hw with h1 | h1 | h1
  · exact hL w h1
  · subst h1
    show ((entryAfter L idx u).endT == (entryAfter L idx u).start) = true
    rcases hu : u.start with _ | t
    · rcases hidx : L[idx]? with _ | w0
      · simp [entryAfter, hu, hidx]
      · have := hL w0 (mem_of_getElemOpt hidx)
        rw [beq_iff_eq] at this
        simp [entryAfter, hu, hidx, this]
    · simp [entryAfter, hu]
  · subst h1
    decide

/-- Claim C10: in every scheduled-warmup state the Settings page can produce,
each stored window is a degenerate range — its end field equals its start
field. -/
theorem scheduleRangesDegenerate (s : WarmupState) (hr : ReachableWarmup s) :
    degenerateWindows s = true := by
  induction hr with
  | init => decide
  | enable s' b hr' ih =>
    rcases hex : hasExistingSchedules s' with _ | _
    · have hsch : (setWarmupEnabled s' b).schedules = some defaultWindows := by
        simp [setWarmupEnabled, hex]
      unfold degenerateWindows
      rw [hsch]
      decide
    · have hsch : (setWarmupEnabled s' b).schedules = s'.schedules := by
        simp [setWarmupEnabled, hex]
      unfold degenerateWindows
      rw [hsch]
      unfold degenerateWindows at ih
      exact ih
  | update s' idx u hr' ih =>
    have hLall : (s'.schedules.getD defaultWindows).all (fun w => w.endT == w.start) = true := by
      rcases hs : s'.schedules with _ | l
      · decide
      · unfold degenerateWindows at ih
        rw [hs] at ih
        simpa using ih
    rcases hu : u.start with _ | t
    · have hres : (updateTimePoint s' idx u).2
          = { enabled := true,
              schedules := some (setWindow (s'.schedules.getD defaultWindows) idx
                (entryAfter (s'.schedules.getD defaultWindows) idx u)) } := by
        simp [updateTimePoint, hu]
      rw [hres]
      unfold degenerateWindows
      exact setWindow_degenerate _ idx u hLall
    · rcases hcf : windowConflicts idx t (s'.schedules.getD defaultWindows) with _ | _
      · have hres : (updateTimePoint s' idx u).2
            = { enabled := true,
                schedules := some (setWindow (s'.schedules.getD defaultWindows) idx
                  (entryAfter (s'.schedules.getD defaultWindows) idx u)) } := by
          simp [updateTimePoint, hu, hcf]
        rw [hres]
        unfold degenerateWindows
        exact setWindow_degenerate _ idx u hLall
      · have hres : (updateTimePoint s' idx u).2 = s' := by
          simp [updateTimePoint, hu, hcf]
        rw [hres]
        exact ih

/-- Witness for C10 at the initial form state. -/
theorem scheduleRangesDegenerate_witness : degenerateWindows initialWarmup = true :=
  scheduleRangesDegenerate initialWarmup ReachableWarmup.init
